import Mathlib

/-!
Verification of the investment waterfall calculator (`src/app.py`).

The whole numeric core of the program is the pure Python function
`calculate_waterfall` (src/app.py lines 118-210) plus two loops built on it
inside the sensitivity tab: the sensitivity sweep (lines 403-413) and the
threshold scan (lines 446-466).  Currency amounts and rates are modelled as
rationals (`ℚ`); Python's float literals `0.02`, `0.80`, `0.20` denote exact
decimal fractions and are carried over exactly.

The only call that leaves the repository is `numpy_financial.irr`, wrapped at
lines 179-184 so that a NaN result or a raised exception becomes `None`.  That
wrapped computation is abstracted as an explicit argument
`irr_solver : List ℚ → Option ℚ` of the embedded engine, returning `none`
exactly where the wrapped Python computation yields `None`.  Theorems that
need a fact about the solver state it as a hypothesis that is true of
`numpy_financial.irr`: on a cash-flow sequence with no sign change (all
entries `≤ 0`) the net-present-value polynomial has no root, `numpy_financial.irr`
returns NaN, and the wrapper turns that into `None`.
-/

/-- Output record of `calculate_waterfall`: the dict literal returned at
src/app.py lines 186-210, one field per dict key. -/
structure WaterfallResult where
  carve_out_amount : ℚ
  net_proceeds : ℚ
  fund_ownership_pct : ℚ
  fund_liq_pref : ℚ
  fund_pro_rata : ℚ
  liq_pref_applies : Bool
  fund_gross_proceeds : ℚ
  total_management_fees : ℚ
  fund_net_proceeds : ℚ
  fund_return_of_capital : ℚ
  fund_profit : ℚ
  total_lp_profit_share : ℚ
  total_gp_carry : ℚ
  total_lp_distributions : ℚ
  investor_fund_pct : ℚ
  investor_return_of_capital : ℚ
  investor_profit_share : ℚ
  investor_total : ℚ
  investor_moic : ℚ
  irr : Option ℚ
  deriving Repr, DecidableEq

/-- The cash-flow sequence built at src/app.py line 178:
`[-investor_contribution] + [0] * (holding_period - 1) + [investor_total]`. -/
def cash_flows (investor_contribution investor_total : ℚ) (holding_period : ℕ) : List ℚ :=
  [-investor_contribution] ++ List.replicate (holding_period - 1) 0 ++ [investor_total]

/-- Shallow embedding of `calculate_waterfall` (src/app.py lines 118-210).

Line-by-line correspondence: the carve-out conditional is lines 127-131 (the
threshold `200_000_000` is the literal at line 128 and `carve_out_pct` is a
percentage, divided by 100 at line 129); `net_proceeds` line 134;
`fund_liq_pref` line 137; `fund_pro_rata` line 140; `liq_pref_applies`
line 143 (`fund_liq_pref >= fund_pro_rata`); the max at line 144 and the cap
at line 147 (the Python reassignment of `fund_gross_proceeds` is the
shadowing `let`); fees line 150; `fund_net_proceeds` line 153.  The four
conditionals with the common condition `fund_size ≤ fund_net_proceeds` are
the two arms of the single `if fund_net_proceeds >= fund_size` at
lines 155-165, one `let` per assigned variable.  Lines 168-176 are the
remaining sums/products, and the `irr` field is the solver applied to the
cash-flow list of line 178 (see the module docstring for the solver
abstraction). -/
def calculate_waterfall (irr_solver : List ℚ → Option ℚ)
    (fund_size investor_contribution sale_price carve_out_pct : ℚ)
    (holding_period : ℕ) (post_money_val : ℚ) : WaterfallResult :=
  let fund_ownership_pct := fund_size / post_money_val
  let investor_fund_pct := investor_contribution / fund_size
  let carve_out_amount :=
    if sale_price < 200000000 then sale_price * (carve_out_pct / 100) else 0
  let net_proceeds := sale_price - carve_out_amount
  let fund_liq_pref := 2 * fund_size
  let fund_pro_rata := fund_ownership_pct * net_proceeds
  let liq_pref_applies : Bool := decide (fund_pro_rata ≤ fund_liq_pref)
  let fund_gross_proceeds := max fund_liq_pref fund_pro_rata
  let fund_gross_proceeds := min fund_gross_proceeds net_proceeds
  let total_management_fees := fund_size * 0.02 * (holding_period : ℚ)
  let fund_net_proceeds := fund_gross_proceeds - total_management_fees
  let fund_return_of_capital :=
    if fund_size ≤ fund_net_proceeds then fund_size else max fund_net_proceeds 0
  let fund_profit :=
    if fund_size ≤ fund_net_proceeds then fund_net_proceeds - fund_size else 0
  let total_lp_profit_share :=
    if fund_size ≤ fund_net_proceeds then fund_profit * 0.80 else 0
  let total_gp_carry :=
    if fund_size ≤ fund_net_proceeds then fund_profit * 0.20 else 0
  let total_lp_distributions := fund_return_of_capital + total_lp_profit_share
  let investor_return_of_capital := investor_fund_pct * fund_return_of_capital
  let investor_profit_share := investor_fund_pct * total_lp_profit_share
  let investor_total := investor_fund_pct * total_lp_distributions
  let investor_moic :=
    if 0 < investor_contribution then investor_total / investor_contribution else 0
  let irr := irr_solver (cash_flows investor_contribution investor_total holding_period)
  { carve_out_amount := carve_out_amount
    net_proceeds := net_proceeds
    fund_ownership_pct := fund_ownership_pct
    fund_liq_pref := fund_liq_pref
    fund_pro_rata := fund_pro_rata
    liq_pref_applies := liq_pref_applies
    fund_gross_proceeds := fund_gross_proceeds
    total_management_fees := total_management_fees
    fund_net_proceeds := fund_net_proceeds
    fund_return_of_capital := fund_return_of_capital
    fund_profit := fund_profit
    total_lp_profit_share := total_lp_profit_share
    total_gp_carry := total_gp_carry
    total_lp_distributions := total_lp_distributions
    investor_fund_pct := investor_fund_pct
    investor_return_of_capital := investor_return_of_capital
    investor_profit_share := investor_profit_share
    investor_total := investor_total
    investor_moic := investor_moic
    irr := irr }

/-- The exit values swept by the sensitivity analysis,
`list(range(25_000_000, 1_050_000_000, 25_000_000))` at src/app.py line 404. -/
def exit_values : List ℚ :=
  (List.range 41).map (fun i => 25000000 + 25000000 * (i : ℚ))

/-- The IRR entry appended by the sensitivity sweep loop at src/app.py
line 412: `r['irr'] * 100 if r['irr'] is not None else 0`. -/
def sweep_irr_entry (irr_solver : List ℚ → Option ℚ)
    (fund_size investor_contribution sale_price carve_out_pct : ℚ)
    (holding_period : ℕ) (post_money_val : ℚ) : ℚ :=
  match (calculate_waterfall irr_solver fund_size investor_contribution sale_price
      carve_out_pct holding_period post_money_val).irr with
  | some x => x * 100
  | none => 0

/-- The threshold scan of src/app.py lines 449-460: walk the exit values in
order and stop at the first one whose `investor_moic` reaches the target
(`if r['investor_moic'] >= target_moic: ...; break`), `none` when the loop
finishes without a hit (the `not found` branch at lines 461-466).  The
scanned values are a parameter; the source instantiates it with the
increasing `range(5_000_000, 1_100_000_000, 5_000_000)` at line 451. -/
def threshold_scan (irr_solver : List ℚ → Option ℚ)
    (fund_size investor_contribution carve_out_pct : ℚ)
    (holding_period : ℕ) (post_money_val : ℚ)
    (target_moic : ℚ) (exit_vals : List ℚ) : Option ℚ :=
  exit_vals.find? (fun e =>
    decide (target_moic ≤ (calculate_waterfall irr_solver fund_size investor_contribution e
      carve_out_pct holding_period post_money_val).investor_moic))

section Projections

variable (sol : List ℚ → Option ℚ) (f c e p pm : ℚ) (h : ℕ)

lemma carve_out_amount_def :
    (calculate_waterfall sol f c e p h pm).carve_out_amount =
      if e < 200000000 then e * (p / 100) else 0 := rfl

lemma net_proceeds_def :
    (calculate_waterfall sol f c e p h pm).net_proceeds =
      e - (calculate_waterfall sol f c e p h pm).carve_out_amount := rfl

lemma fund_ownership_pct_def :
    (calculate_waterfall sol f c e p h pm).fund_ownership_pct = f / pm := rfl

lemma investor_fund_pct_def :
    (calculate_waterfall sol f c e p h pm).investor_fund_pct = c / f := rfl

lemma fund_liq_pref_def :
    (calculate_waterfall sol f c e p h pm).fund_liq_pref = 2 * f := rfl

lemma fund_pro_rata_def :
    (calculate_waterfall sol f c e p h pm).fund_pro_rata =
      (calculate_waterfall sol f c e p h pm).fund_ownership_pct *
        (calculate_waterfall sol f c e p h pm).net_proceeds := rfl

lemma fund_gross_proceeds_def :
    (calculate_waterfall sol f c e p h pm).fund_gross_proceeds =
      min (max (calculate_waterfall sol f c e p h pm).fund_liq_pref
        (calculate_waterfall sol f c e p h pm).fund_pro_rata)
        (calculate_waterfall sol f c e p h pm).net_proceeds := rfl

lemma total_management_fees_def :
    (calculate_waterfall sol f c e p h pm).total_management_fees =
      f * 0.02 * (h : ℚ) := rfl

lemma fund_net_proceeds_def :
    (calculate_waterfall sol f c e p h pm).fund_net_proceeds =
      (calculate_waterfall sol f c e p h pm).fund_gross_proceeds -
        (calculate_waterfall sol f c e p h pm).total_management_fees := rfl

lemma fund_return_of_capital_def :
    (calculate_waterfall sol f c e p h pm).fund_return_of_capital =
      if f ≤ (calculate_waterfall sol f c e p h pm).fund_net_proceeds then f
      else max (calculate_waterfall sol f c e p h pm).fund_net_proceeds 0 := rfl

lemma fund_profit_def :
    (calculate_waterfall sol f c e p h pm).fund_profit =
      if f ≤ (calculate_waterfall sol f c e p h pm).fund_net_proceeds then
        (calculate_waterfall sol f c e p h pm).fund_net_proceeds - f
      else 0 := rfl

lemma total_lp_profit_share_def :
    (calculate_waterfall sol f c e p h pm).total_lp_profit_share =
      if f ≤ (calculate_waterfall sol f c e p h pm).fund_net_proceeds then
        (calculate_waterfall sol f c e p h pm).fund_profit * 0.80
      else 0 := rfl

lemma total_gp_carry_def :
    (calculate_waterfall sol f c e p h pm).total_gp_carry =
      if f ≤ (calculate_waterfall sol f c e p h pm).fund_net_proceeds then
        (calculate_waterfall sol f c e p h pm).fund_profit * 0.20
      else 0 := rfl

lemma total_lp_distributions_def :
    (calculate_waterfall sol f c e p h pm).total_lp_distributions =
      (calculate_waterfall sol f c e p h pm).fund_return_of_capital +
        (calculate_waterfall sol f c e p h pm).total_lp_profit_share := rfl

lemma investor_return_of_capital_def :
    (calculate_waterfall sol f c e p h pm).investor_return_of_capital =
      (calculate_waterfall sol f c e p h pm).investor_fund_pct *
        (calculate_waterfall sol f c e p h pm).fund_return_of_capital := rfl

lemma investor_profit_share_def :
    (calculate_waterfall sol f c e p h pm).investor_profit_share =
      (calculate_waterfall sol f c e p h pm).investor_fund_pct *
        (calculate_waterfall sol f c e p h pm).total_lp_profit_share := rfl

lemma investor_total_def :
    (calculate_waterfall sol f c e p h pm).investor_total =
      (calculate_waterfall sol f c e p h pm).investor_fund_pct *
        (calculate_waterfall sol f c e p h pm).total_lp_distributions := rfl

lemma investor_moic_def :
    (calculate_waterfall sol f c e p h pm).investor_moic =
      if 0 < c then
        (calculate_waterfall sol f c e p h pm).investor_total / c
      else 0 := rfl

lemma irr_def :
    (calculate_waterfall sol f c e p h pm).irr =
      sol (cash_flows c (calculate_waterfall sol f c e p h pm).investor_total h) := rfl

end Projections

/-- C1: for every valid parameter set, `liq_pref_applies` is true exactly when
the liquidation preference is at least the pro-rata amount (ties going to the
preference), `fund_gross_proceeds = min (max fund_liq_pref fund_pro_rata)
net_proceeds`; hence `fund_gross_proceeds ≤ net_proceeds` always, and when the
preference is at least the pro-rata amount, `fund_gross_proceeds =
min fund_liq_pref net_proceeds`. -/
theorem liq_pref_tie_break (sol : List ℚ → Option ℚ) (f c e p pm : ℚ) (h : ℕ)
    (hf : 0 < f) (hc : 0 < c) (hpm : 0 < pm) (hcf : c ≤ f)
    (hh : 1 ≤ h) (hp0 : 0 ≤ p) (hp1 : p < 100) (he : 0 ≤ e) :
    ((calculate_waterfall sol f c e p h pm).liq_pref_applies = true ↔
      (calculate_waterfall sol f c e p h pm).fund_pro_rata ≤
        (calculate_waterfall sol f c e p h pm).fund_liq_pref) ∧
    (calculate_waterfall sol f c e p h pm).fund_gross_proceeds =
      min (max (calculate_waterfall sol f c e p h pm).fund_liq_pref
        (calculate_waterfall sol f c e p h pm).fund_pro_rata)
        (calculate_waterfall sol f c e p h pm).net_proceeds ∧
    (calculate_waterfall sol f c e p h pm).fund_gross_proceeds ≤
      (calculate_waterfall sol f c e p h pm).net_proceeds ∧
    ((calculate_waterfall sol f c e p h pm).fund_pro_rata ≤
        (calculate_waterfall sol f c e p h pm).fund_liq_pref →
      (calculate_waterfall sol f c e p h pm).fund_gross_proceeds =
        min (calculate_waterfall sol f c e p h pm).fund_liq_pref
          (calculate_waterfall sol f c e p h pm).net_proceeds) := by
  refine ⟨by simp [calculate_waterfall], rfl, min_le_right _ _, ?_⟩
  intro hle
  have h2 : (calculate_waterfall sol f c e p h pm).fund_gross_proceeds =
      min (max (calculate_waterfall sol f c e p h pm).fund_liq_pref
        (calculate_waterfall sol f c e p h pm).fund_pro_rata)
        (calculate_waterfall sol f c e p h pm).net_proceeds := rfl
  rw [h2, max_eq_left hle]

/-- C1 witness: the theorem instantiated at the Scenario A parameters. -/
theorem liq_pref_tie_break_witness :
    0 < (10000000 : ℚ) ∧ 0 < (2000000 : ℚ) ∧ 0 < (82000000 : ℚ) ∧
    (2000000 : ℚ) ≤ 10000000 ∧ 1 ≤ 2 ∧ 0 ≤ (10 : ℚ) ∧ (10 : ℚ) < 100 ∧
    0 ≤ (200000000 : ℚ) ∧
    (((calculate_waterfall (fun _ => none) 10000000 2000000 200000000 10 2
        82000000).liq_pref_applies = true ↔
      (calculate_waterfall (fun _ => none) 10000000 2000000 200000000 10 2
        82000000).fund_pro_rata ≤
        (calculate_waterfall (fun _ => none) 10000000 2000000 200000000 10 2
          82000000).fund_liq_pref) ∧
    (calculate_waterfall (fun _ => none) 10000000 2000000 200000000 10 2
        82000000).fund_gross_proceeds =
      min (max (calculate_waterfall (fun _ => none) 10000000 2000000 200000000 10 2
        82000000).fund_liq_pref
        (calculate_waterfall (fun _ => none) 10000000 2000000 200000000 10 2
          82000000).fund_pro_rata)
        (calculate_waterfall (fun _ => none) 10000000 2000000 200000000 10 2
          82000000).net_proceeds ∧
    (calculate_waterfall (fun _ => none) 10000000 2000000 200000000 10 2
        82000000).fund_gross_proceeds ≤
      (calculate_waterfall (fun _ => none) 10000000 2000000 200000000 10 2
        82000000).net_proceeds ∧
    ((calculate_waterfall (fun _ => none) 10000000 2000000 200000000 10 2
        82000000).fund_pro_rata ≤
        (calculate_waterfall (fun _ => none) 10000000 2000000 200000000 10 2
          82000000).fund_liq_pref →
      (calculate_waterfall (fun _ => none) 10000000 2000000 200000000 10 2
        82000000).fund_gross_proceeds =
        min (calculate_waterfall (fun _ => none) 10000000 2000000 200000000 10 2
          82000000).fund_liq_pref
          (calculate_waterfall (fun _ => none) 10000000 2000000 200000000 10 2
            82000000).net_proceeds)) :=
  ⟨by norm_num, by norm_num, by norm_num, by norm_num, by norm_num, by norm_num,
    by norm_num, by norm_num,
    liq_pref_tie_break (fun _ => none) 10000000 2000000 200000000 10 82000000 2
      (by norm_num) (by norm_num) (by norm_num) (by norm_num) (by norm_num)
      (by norm_num) (by norm_num) (by norm_num)⟩

/-- C5: for every valid parameter set, the carve-out equals
`sale_price * (carve_out_pct / 100)` when the sale price is strictly below
the 200,000,000 threshold and `0` otherwise, and
`carve_out_amount + net_proceeds = sale_price` exactly. -/
theorem carve_out_split (sol : List ℚ → Option ℚ) (f c e p pm : ℚ) (h : ℕ)
    (hf : 0 < f) (hc : 0 < c) (hpm : 0 < pm) (hcf : c ≤ f)
    (hh : 1 ≤ h) (hp0 : 0 ≤ p) (hp1 : p < 100) (he : 0 ≤ e) :
    (e < 200000000 →
      (calculate_waterfall sol f c e p h pm).carve_out_amount = e * (p / 100)) ∧
    (200000000 ≤ e →
      (calculate_waterfall sol f c e p h pm).carve_out_amount = 0) ∧
    (calculate_waterfall sol f c e p h pm).carve_out_amount +
      (calculate_waterfall sol f c e p h pm).net_proceeds = e := by
  refine ⟨fun hlt => ?_, fun hge => ?_, ?_⟩
  · rw [carve_out_amount_def, if_pos hlt]
  · rw [carve_out_amount_def, if_neg (not_lt.mpr hge)]
  · rw [net_proceeds_def]; ring

/-- C5 witness: the theorem instantiated below the threshold (Scenario B style,
100,000,000 sale price, 10% carve-out). -/
theorem carve_out_split_witness :
    0 < (10000000 : ℚ) ∧ 0 < (2000000 : ℚ) ∧ 0 < (82000000 : ℚ) ∧
    (2000000 : ℚ) ≤ 10000000 ∧ 1 ≤ 2 ∧ 0 ≤ (10 : ℚ) ∧ (10 : ℚ) < 100 ∧
    0 ≤ (100000000 : ℚ) ∧
    (((100000000 : ℚ) < 200000000 →
      (calculate_waterfall (fun _ => none) 10000000 2000000 100000000 10 2
        82000000).carve_out_amount = 100000000 * (10 / 100)) ∧
    ((200000000 : ℚ) ≤ 100000000 →
      (calculate_waterfall (fun _ => none) 10000000 2000000 100000000 10 2
        82000000).carve_out_amount = 0) ∧
    (calculate_waterfall (fun _ => none) 10000000 2000000 100000000 10 2
        82000000).carve_out_amount +
      (calculate_waterfall (fun _ => none) 10000000 2000000 100000000 10 2
        82000000).net_proceeds = 100000000) :=
  ⟨by norm_num, by norm_num, by norm_num, by norm_num, by norm_num, by norm_num,
    by norm_num, by norm_num,
    carve_out_split (fun _ => none) 10000000 2000000 100000000 10 82000000 2
      (by norm_num) (by norm_num) (by norm_num) (by norm_num) (by norm_num)
      (by norm_num) (by norm_num) (by norm_num)⟩

/-- C7: for every valid parameter set,
`total_lp_distributions = fund_return_of_capital + total_lp_profit_share` and
`total_gp_carry + total_lp_profit_share = fund_profit`, both exactly. -/
theorem lp_gp_additivity (sol : List ℚ → Option ℚ) (f c e p pm : ℚ) (h : ℕ)
    (hf : 0 < f) (hc : 0 < c) (hpm : 0 < pm) (hcf : c ≤ f)
    (hh : 1 ≤ h) (hp0 : 0 ≤ p) (hp1 : p < 100) (he : 0 ≤ e) :
    (calculate_waterfall sol f c e p h pm).total_lp_distributions =
      (calculate_waterfall sol f c e p h pm).fund_return_of_capital +
        (calculate_waterfall sol f c e p h pm).total_lp_profit_share ∧
    (calculate_waterfall sol f c e p h pm).total_gp_carry +
      (calculate_waterfall sol f c e p h pm).total_lp_profit_share =
        (calculate_waterfall sol f c e p h pm).fund_profit := by
  refine ⟨total_lp_distributions_def sol f c e p pm h, ?_⟩
  rw [total_gp_carry_def, total_lp_profit_share_def, fund_profit_def]
  split_ifs with hbr
  · ring
  · ring

/-- C7 witness: the theorem instantiated at the Scenario A parameters. -/
theorem lp_gp_additivity_witness :
    0 < (10000000 : ℚ) ∧ 0 < (2000000 : ℚ) ∧ 0 < (82000000 : ℚ) ∧
    (2000000 : ℚ) ≤ 10000000 ∧ 1 ≤ 2 ∧ 0 ≤ (10 : ℚ) ∧ (10 : ℚ) < 100 ∧
    0 ≤ (200000000 : ℚ) ∧
    ((calculate_waterfall (fun _ => none) 10000000 2000000 200000000 10 2
        82000000).total_lp_distributions =
      (calculate_waterfall (fun _ => none) 10000000 2000000 200000000 10 2
        82000000).fund_return_of_capital +
        (calculate_waterfall (fun _ => none) 10000000 2000000 200000000 10 2
          82000000).total_lp_profit_share ∧
    (calculate_waterfall (fun _ => none) 10000000 2000000 200000000 10 2
        82000000).total_gp_carry +
      (calculate_waterfall (fun _ => none) 10000000 2000000 200000000 10 2
        82000000).total_lp_profit_share =
        (calculate_waterfall (fun _ => none) 10000000 2000000 200000000 10 2
          82000000).fund_profit) :=
  ⟨by norm_num, by norm_num, by norm_num, by norm_num, by norm_num, by norm_num,
    by norm_num, by norm_num,
    lp_gp_additivity (fun _ => none) 10000000 2000000 200000000 10 82000000 2
      (by norm_num) (by norm_num) (by norm_num) (by norm_num) (by norm_num)
      (by norm_num) (by norm_num) (by norm_num)⟩

/-- C10: for every valid parameter set, the investor-level fields are additive
exactly like the fund-level ones:
`investor_total = investor_return_of_capital + investor_profit_share`. -/
theorem investor_additivity (sol : List ℚ → Option ℚ) (f c e p pm : ℚ) (h : ℕ)
    (hf : 0 < f) (hc : 0 < c) (hpm : 0 < pm) (hcf : c ≤ f)
    (hh : 1 ≤ h) (hp0 : 0 ≤ p) (hp1 : p < 100) (he : 0 ≤ e) :
    (calculate_waterfall sol f c e p h pm).investor_total =
      (calculate_waterfall sol f c e p h pm).investor_return_of_capital +
        (calculate_waterfall sol f c e p h pm).investor_profit_share := by
  rw [investor_total_def, investor_return_of_capital_def, investor_profit_share_def,
    total_lp_distributions_def]
  ring

/-- C10 witness: the theorem instantiated at the Scenario A parameters. -/
theorem investor_additivity_witness :
    0 < (10000000 : ℚ) ∧ 0 < (2000000 : ℚ) ∧ 0 < (82000000 : ℚ) ∧
    (2000000 : ℚ) ≤ 10000000 ∧ 1 ≤ 2 ∧ 0 ≤ (10 : ℚ) ∧ (10 : ℚ) < 100 ∧
    0 ≤ (200000000 : ℚ) ∧
    (calculate_waterfall (fun _ => none) 10000000 2000000 200000000 10 2
        82000000).investor_total =
      (calculate_waterfall (fun _ => none) 10000000 2000000 200000000 10 2
        82000000).investor_return_of_capital +
        (calculate_waterfall (fun _ => none) 10000000 2000000 200000000 10 2
          82000000).investor_profit_share :=
  ⟨by norm_num, by norm_num, by norm_num, by norm_num, by norm_num, by norm_num,
    by norm_num, by norm_num,
    investor_additivity (fun _ => none) 10000000 2000000 200000000 10 82000000 2
      (by norm_num) (by norm_num) (by norm_num) (by norm_num) (by norm_num)
      (by norm_num) (by norm_num) (by norm_num)⟩

/-- C2: for every valid parameter set, if the fund's net-after-fees proceeds
reach the fund size then capital is returned in full and the residual profit
is split 80/20 between LPs and GP; otherwise the return of capital is
`max fund_net_proceeds 0` and profit, LP share and GP carry are all 0 — in
particular a negative `fund_net_proceeds` floors the recovery at zero instead
of passing the deficit through. -/
theorem roc_profit_split (sol : List ℚ → Option ℚ) (f c e p pm : ℚ) (h : ℕ)
    (hf : 0 < f) (hc : 0 < c) (hpm : 0 < pm) (hcf : c ≤ f)
    (hh : 1 ≤ h) (hp0 : 0 ≤ p) (hp1 : p < 100) (he : 0 ≤ e) :
    (f ≤ (calculate_waterfall sol f c e p h pm).fund_net_proceeds →
      (calculate_waterfall sol f c e p h pm).fund_return_of_capital = f ∧
      (calculate_waterfall sol f c e p h pm).fund_profit =
        (calculate_waterfall sol f c e p h pm).fund_net_proceeds - f ∧
      (calculate_waterfall sol f c e p h pm).total_lp_profit_share =
        (calculate_waterfall sol f c e p h pm).fund_profit * 0.80 ∧
      (calculate_waterfall sol f c e p h pm).total_gp_carry =
        (calculate_waterfall sol f c e p h pm).fund_profit * 0.20) ∧
    ((calculate_waterfall sol f c e p h pm).fund_net_proceeds < f →
      (calculate_waterfall sol f c e p h pm).fund_return_of_capital =
        max (calculate_waterfall sol f c e p h pm).fund_net_proceeds 0 ∧
      (calculate_waterfall sol f c e p h pm).fund_profit = 0 ∧
      (calculate_waterfall sol f c e p h pm).total_lp_profit_share = 0 ∧
      (calculate_waterfall sol f c e p h pm).total_gp_carry = 0) ∧
    ((calculate_waterfall sol f c e p h pm).fund_net_proceeds < 0 →
      (calculate_waterfall sol f c e p h pm).fund_return_of_capital = 0) := by
  refine ⟨fun hge => ?_, fun hlt => ?_, fun hneg => ?_⟩
  · exact ⟨by rw [fund_return_of_capital_def, if_pos hge],
      by rw [fund_profit_def, if_pos hge],
      by rw [total_lp_profit_share_def, if_pos hge],
      by rw [total_gp_carry_def, if_pos hge]⟩
  · have hlt' := not_le.mpr hlt
    exact ⟨by rw [fund_return_of_capital_def, if_neg hlt'],
      by rw [fund_profit_def, if_neg hlt'],
      by rw [total_lp_profit_share_def, if_neg hlt'],
      by rw [total_gp_carry_def, if_neg hlt']⟩
  · have hlt' := not_le.mpr (hneg.trans hf)
    rw [fund_return_of_capital_def, if_neg hlt']
    exact max_eq_right hneg.le

/-- C2 witness: the theorem instantiated at the Scenario A parameters. -/
theorem roc_profit_split_witness :
    0 < (10000000 : ℚ) ∧ 0 < (2000000 : ℚ) ∧ 0 < (82000000 : ℚ) ∧
    (2000000 : ℚ) ≤ 10000000 ∧ 1 ≤ 2 ∧ 0 ≤ (10 : ℚ) ∧ (10 : ℚ) < 100 ∧
    0 ≤ (200000000 : ℚ) ∧
    (((10000000 : ℚ) ≤ (calculate_waterfall (fun _ => none) 10000000 2000000
        200000000 10 2 82000000).fund_net_proceeds →
      (calculate_waterfall (fun _ => none) 10000000 2000000 200000000 10 2
        82000000).fund_return_of_capital = 10000000 ∧
      (calculate_waterfall (fun _ => none) 10000000 2000000 200000000 10 2
        82000000).fund_profit =
        (calculate_waterfall (fun _ => none) 10000000 2000000 200000000 10 2
          82000000).fund_net_proceeds - 10000000 ∧
      (calculate_waterfall (fun _ => none) 10000000 2000000 200000000 10 2
        82000000).total_lp_profit_share =
        (calculate_waterfall (fun _ => none) 10000000 2000000 200000000 10 2
          82000000).fund_profit * 0.80 ∧
      (calculate_waterfall (fun _ => none) 10000000 2000000 200000000 10 2
        82000000).total_gp_carry =
        (calculate_waterfall (fun _ => none) 10000000 2000000 200000000 10 2
          82000000).fund_profit * 0.20) ∧
    ((calculate_waterfall (fun _ => none) 10000000 2000000 200000000 10 2
        82000000).fund_net_proceeds < 10000000 →
      (calculate_waterfall (fun _ => none) 10000000 2000000 200000000 10 2
        82000000).fund_return_of_capital =
        max (calculate_waterfall (fun _ => none) 10000000 2000000 200000000 10 2
          82000000).fund_net_proceeds 0 ∧
      (calculate_waterfall (fun _ => none) 10000000 2000000 200000000 10 2
        82000000).fund_profit = 0 ∧
      (calculate_waterfall (fun _ => none) 10000000 2000000 200000000 10 2
        82000000).total_lp_profit_share = 0 ∧
      (calculate_waterfall (fun _ => none) 10000000 2000000 200000000 10 2
        82000000).total_gp_carry = 0) ∧
    ((calculate_waterfall (fun _ => none) 10000000 2000000 200000000 10 2
        82000000).fund_net_proceeds < 0 →
      (calculate_waterfall (fun _ => none) 10000000 2000000 200000000 10 2
        82000000).fund_return_of_capital = 0)) :=
  ⟨by norm_num, by norm_num, by norm_num, by norm_num, by norm_num, by norm_num,
    by norm_num, by norm_num,
    roc_profit_split (fun _ => none) 10000000 2000000 200000000 10 82000000 2
      (by norm_num) (by norm_num) (by norm_num) (by norm_num) (by norm_num)
      (by norm_num) (by norm_num) (by norm_num)⟩

/-- C4 counterexample: at the invalid parameter set with
investor_contribution = 20000000 exceeding fund_size = 10000000 (sale price
50000000, carve-out 10%, holding period 2, post-money 82000000), the engine
neither fails nor clamps: `calculate_waterfall` (src/app.py lines 118-210)
contains no parameter check, so it returns a result, and the
ownership-of-fund fraction it reports is the out-of-range value 2. -/
theorem engine_no_validation_counterexample :
    (calculate_waterfall (fun _ => none) 10000000 20000000 50000000 10 2
      82000000).investor_fund_pct = 2 := by
  rw [investor_fund_pct_def]; norm_num

/-- C4 amended: the engine performs no parameter validation.  For any
parameter set with investor_contribution > fund_size > 0 — invalid per the
spec — it still returns a result with the inputs passed through unclamped:
the reported ownership-of-fund fraction exceeds 1.  (Input ranges are
enforced only by the UI widgets at src/app.py lines 70-113, outside the
engine.) -/
theorem engine_no_validation (sol : List ℚ → Option ℚ) (f c e p pm : ℚ) (h : ℕ)
    (hf : 0 < f) (hcf : f < c) :
    1 < (calculate_waterfall sol f c e p h pm).investor_fund_pct := by
  rw [investor_fund_pct_def]
  exact (one_lt_div hf).mpr hcf

/-- C4 witness: the amended theorem at the counterexample's parameter set. -/
theorem engine_no_validation_witness :
    0 < (10000000 : ℚ) ∧ (10000000 : ℚ) < 20000000 ∧
    1 < (calculate_waterfall (fun _ => none) 10000000 20000000 50000000 10 2
      82000000).investor_fund_pct :=
  ⟨by norm_num, by norm_num,
    engine_no_validation (fun _ => none) 10000000 20000000 50000000 10 82000000 2
      (by norm_num) (by norm_num)⟩

/-- C6: for every valid parameter set the engine hands the IRR solver exactly
the sequence `[-investor_contribution] ++ (holding_period - 1) interior zeros
++ [investor_total]`, whose length is `holding_period + 1`; and in the
total-loss case (`investor_total = 0`) any solver that yields `none` on a
sequence with no sign change (all entries `≤ 0`) — which is how the wrapped
`numpy_financial.irr` behaves, NaN becoming `None` at src/app.py
lines 179-184 — leaves the `irr` field absent while the MOIC is 0. -/
theorem cash_flow_irr_absent (sol : List ℚ → Option ℚ)
    (hsol : ∀ cf : List ℚ, (∀ x ∈ cf, x ≤ 0) → sol cf = none)
    (f c e p pm : ℚ) (h : ℕ)
    (hf : 0 < f) (hc : 0 < c) (hpm : 0 < pm) (hcf : c ≤ f)
    (hh : 1 ≤ h) (hp0 : 0 ≤ p) (hp1 : p < 100) (he : 0 ≤ e) :
    (calculate_waterfall sol f c e p h pm).irr =
      sol ([-c] ++ List.replicate (h - 1) 0 ++
        [(calculate_waterfall sol f c e p h pm).investor_total]) ∧
    (cash_flows c (calculate_waterfall sol f c e p h pm).investor_total h).length
      = h + 1 ∧
    ((calculate_waterfall sol f c e p h pm).investor_total = 0 →
      (calculate_waterfall sol f c e p h pm).irr = none ∧
      (calculate_waterfall sol f c e p h pm).investor_moic = 0) := by
  refine ⟨rfl, ?_, fun h0 => ⟨?_, ?_⟩⟩
  · simp only [cash_flows, List.length_append, List.length_replicate,
      List.length_singleton, List.length_cons, List.length_nil]
    omega
  · rw [irr_def, h0]
    apply hsol
    intro x hx
    simp only [cash_flows, List.mem_append, List.mem_replicate,
      List.mem_singleton] at hx
    rcases hx with (rfl | ⟨-, rfl⟩) | rfl
    · linarith
    · exact le_refl 0
    · exact le_refl 0
  · rw [investor_moic_def, if_pos hc, h0, zero_div]

/-- C6 witness: a total loss at sale price 0 (Scenario A fund, 2-year hold)
with the solver that is `none` everywhere. -/
theorem cash_flow_irr_absent_witness :
    (∀ cf : List ℚ, (∀ x ∈ cf, x ≤ 0) →
      (fun _ : List ℚ => (none : Option ℚ)) cf = none) ∧
    0 < (10000000 : ℚ) ∧ 0 < (2000000 : ℚ) ∧ 0 < (82000000 : ℚ) ∧
    (2000000 : ℚ) ≤ 10000000 ∧ 1 ≤ 2 ∧ 0 ≤ (10 : ℚ) ∧ (10 : ℚ) < 100 ∧
    0 ≤ (0 : ℚ) ∧
    ((calculate_waterfall (fun _ => none) 10000000 2000000 0 10 2 82000000).irr =
      (fun _ : List ℚ => (none : Option ℚ))
        ([-2000000] ++ List.replicate (2 - 1) 0 ++
          [(calculate_waterfall (fun _ => none) 10000000 2000000 0 10 2
            82000000).investor_total]) ∧
    (cash_flows 2000000
      (calculate_waterfall (fun _ => none) 10000000 2000000 0 10 2
        82000000).investor_total 2).length = 2 + 1 ∧
    ((calculate_waterfall (fun _ => none) 10000000 2000000 0 10 2
        82000000).investor_total = 0 →
      (calculate_waterfall (fun _ => none) 10000000 2000000 0 10 2
        82000000).irr = none ∧
      (calculate_waterfall (fun _ => none) 10000000 2000000 0 10 2
        82000000).investor_moic = 0)) :=
  ⟨fun _ _ => rfl, by norm_num, by norm_num, by norm_num, by norm_num,
    by norm_num, by norm_num, by norm_num, by norm_num,
    cash_flow_irr_absent (fun _ => none) (fun _ _ => rfl)
      10000000 2000000 0 10 82000000 2
      (by norm_num) (by norm_num) (by norm_num) (by norm_num) (by norm_num)
      (by norm_num) (by norm_num) (by norm_num)⟩

/-- C9 (code bug): the sensitivity sweep masks an absent IRR as the number 0.
At the valid parameter set investor_contribution = 2000000,
carve_out_pct = 92, holding_period = 10 and the first swept exit value
25000000, the investor total is 0, so for any solver behaving like the
wrapped `numpy_financial.irr` (`none` on a sequence with no sign change) the
computed IRR is absent; yet the value the sweep loop appends to its IRR
series (`r['irr'] * 100 if r['irr'] is not None else 0`, src/app.py
line 412) is the numeric 0 — indistinguishable from a genuine 0% IRR — where
the spec requires reporting "absent / not available". -/
theorem sweep_masks_absent_irr (sol : List ℚ → Option ℚ)
    (hsol : ∀ cf : List ℚ, (∀ x ∈ cf, x ≤ 0) → sol cf = none) :
    (calculate_waterfall sol 10000000 2000000 25000000 92 10 82000000).irr =
      none ∧
    sweep_irr_entry sol 10000000 2000000 25000000 92 10 82000000 = 0 := by
  have htot : (calculate_waterfall sol 10000000 2000000 25000000 92 10
      82000000).investor_total = 0 := by
    norm_num [calculate_waterfall]
  have hirr : (calculate_waterfall sol 10000000 2000000 25000000 92 10
      82000000).irr = none := by
    rw [irr_def, htot]
    apply hsol
    intro x hx
    simp only [cash_flows, List.mem_append, List.mem_replicate,
      List.mem_singleton] at hx
    rcases hx with (rfl | ⟨-, rfl⟩) | rfl
    · norm_num
    · exact le_refl 0
    · exact le_refl 0
  exact ⟨hirr, by rw [sweep_irr_entry, hirr]⟩

/-- C9 witness: the masking theorem with the solver that is `none` everywhere. -/
theorem sweep_masks_absent_irr_witness :
    (∀ cf : List ℚ, (∀ x ∈ cf, x ≤ 0) →
      (fun _ : List ℚ => (none : Option ℚ)) cf = none) ∧
    ((calculate_waterfall (fun _ => none) 10000000 2000000 25000000 92 10
        82000000).irr = none ∧
    sweep_irr_entry (fun _ => none) 10000000 2000000 25000000 92 10
      82000000 = 0) :=
  ⟨fun _ _ => rfl, sweep_masks_absent_irr (fun _ => none) (fun _ _ => rfl)⟩

lemma net_proceeds_mono (sol : List ℚ → Option ℚ) (f c p pm : ℚ) (h : ℕ)
    (e1 e2 : ℚ) (hp0 : 0 ≤ p) (hp1 : p ≤ 100) (he0 : 0 ≤ e1) (he : e1 ≤ e2) :
    (calculate_waterfall sol f c e1 p h pm).net_proceeds ≤
      (calculate_waterfall sol f c e2 p h pm).net_proceeds := by
  have hq0 : 0 ≤ p / 100 := by positivity
  have hq1 : p / 100 ≤ 1 := by
    rw [div_le_one (by norm_num : (0:ℚ) < 100)]; exact hp1
  rw [net_proceeds_def, net_proceeds_def, carve_out_amount_def, carve_out_amount_def]
  split_ifs with h1 h2 h2
  · nlinarith [mul_nonneg (sub_nonneg.mpr he) (sub_nonneg.mpr hq1)]
  · nlinarith [mul_nonneg he0 hq0]
  · linarith
  · linarith

lemma fund_gross_proceeds_mono (sol : List ℚ → Option ℚ) (f c p pm : ℚ) (h : ℕ)
    (e1 e2 : ℚ) (hf : 0 ≤ f) (hpm : 0 ≤ pm)
    (hp0 : 0 ≤ p) (hp1 : p ≤ 100) (he0 : 0 ≤ e1) (he : e1 ≤ e2) :
    (calculate_waterfall sol f c e1 p h pm).fund_gross_proceeds ≤
      (calculate_waterfall sol f c e2 p h pm).fund_gross_proceeds := by
  have hnet := net_proceeds_mono sol f c p pm h e1 e2 hp0 hp1 he0 he
  have hpro : (calculate_waterfall sol f c e1 p h pm).fund_pro_rata ≤
      (calculate_waterfall sol f c e2 p h pm).fund_pro_rata := by
    rw [fund_pro_rata_def, fund_pro_rata_def, fund_ownership_pct_def,
      fund_ownership_pct_def]
    exact mul_le_mul_of_nonneg_left hnet (div_nonneg hf hpm)
  rw [fund_gross_proceeds_def, fund_gross_proceeds_def, fund_liq_pref_def,
    fund_liq_pref_def]
  exact min_le_min (max_le_max le_rfl hpro) hnet

lemma fund_net_proceeds_mono (sol : List ℚ → Option ℚ) (f c p pm : ℚ) (h : ℕ)
    (e1 e2 : ℚ) (hf : 0 ≤ f) (hpm : 0 ≤ pm)
    (hp0 : 0 ≤ p) (hp1 : p ≤ 100) (he0 : 0 ≤ e1) (he : e1 ≤ e2) :
    (calculate_waterfall sol f c e1 p h pm).fund_net_proceeds ≤
      (calculate_waterfall sol f c e2 p h pm).fund_net_proceeds := by
  have hgross := fund_gross_proceeds_mono sol f c p pm h e1 e2 hf hpm hp0 hp1 he0 he
  rw [fund_net_proceeds_def, fund_net_proceeds_def, total_management_fees_def,
    total_management_fees_def]
  linarith

lemma total_lp_distributions_mono (sol : List ℚ → Option ℚ) (f c p pm : ℚ)
    (h : ℕ) (e1 e2 : ℚ) (hf : 0 ≤ f) (hpm : 0 ≤ pm)
    (hp0 : 0 ≤ p) (hp1 : p ≤ 100) (he0 : 0 ≤ e1) (he : e1 ≤ e2) :
    (calculate_waterfall sol f c e1 p h pm).total_lp_distributions ≤
      (calculate_waterfall sol f c e2 p h pm).total_lp_distributions := by
  have hx := fund_net_proceeds_mono sol f c p pm h e1 e2 hf hpm hp0 hp1 he0 he
  rw [total_lp_distributions_def, total_lp_distributions_def,
    fund_return_of_capital_def, fund_return_of_capital_def,
    total_lp_profit_share_def, total_lp_profit_share_def,
    fund_profit_def, fund_profit_def]
  rcases le_or_lt f (calculate_waterfall sol f c e1 p h pm).fund_net_proceeds
    with h1 | h1 <;>
  rcases le_or_lt f (calculate_waterfall sol f c e2 p h pm).fund_net_proceeds
    with h2 | h2
  · rw [if_pos h1, if_pos h1, if_pos h2, if_pos h2, if_pos h1, if_pos h2]
    linarith
  · linarith
  · rw [if_neg (not_le.mpr h1), if_neg (not_le.mpr h1), if_pos h2, if_pos h2,
      if_pos h2]
    have hm : max (calculate_waterfall sol f c e1 p h pm).fund_net_proceeds 0 ≤ f :=
      max_le h1.le hf
    nlinarith [sub_nonneg.mpr h2]
  · rw [if_neg (not_le.mpr h1), if_neg (not_le.mpr h1),
      if_neg (not_le.mpr h2), if_neg (not_le.mpr h2)]
    simpa using max_le_max hx (le_refl (0 : ℚ))

lemma investor_moic_mono_aux (sol : List ℚ → Option ℚ) (f c p pm : ℚ) (h : ℕ)
    (e1 e2 : ℚ) (hf : 0 ≤ f) (hc : 0 < c) (hpm : 0 ≤ pm)
    (hp0 : 0 ≤ p) (hp1 : p ≤ 100) (he0 : 0 ≤ e1) (he : e1 ≤ e2) :
    (calculate_waterfall sol f c e1 p h pm).investor_moic ≤
      (calculate_waterfall sol f c e2 p h pm).investor_moic := by
  have hd := total_lp_distributions_mono sol f c p pm h e1 e2 hf hpm hp0 hp1 he0 he
  have ht : (calculate_waterfall sol f c e1 p h pm).investor_total ≤
      (calculate_waterfall sol f c e2 p h pm).investor_total := by
    rw [investor_total_def, investor_total_def, investor_fund_pct_def,
      investor_fund_pct_def]
    exact mul_le_mul_of_nonneg_left hd (div_nonneg hc.le hf)
  rw [investor_moic_def, investor_moic_def, if_pos hc, if_pos hc]
  exact div_le_div_of_nonneg_right ht hc.le

/-- C3: for every fixed valid setting of fund size, post-money valuation,
investor contribution, carve-out rate and holding period, the MOIC computed
by the engine is monotone non-decreasing in the exit price, including across
the 200,000,000 carve-out threshold. -/
theorem investor_moic_mono (sol : List ℚ → Option ℚ) (f c p pm : ℚ) (h : ℕ)
    (hf : 0 < f) (hc : 0 < c) (hpm : 0 < pm) (hcf : c ≤ f)
    (hh : 1 ≤ h) (hp0 : 0 ≤ p) (hp1 : p < 100)
    (e1 e2 : ℚ) (he0 : 0 ≤ e1) (he : e1 ≤ e2) :
    (calculate_waterfall sol f c e1 p h pm).investor_moic ≤
      (calculate_waterfall sol f c e2 p h pm).investor_moic :=
  investor_moic_mono_aux sol f c p pm h e1 e2 hf.le hc hpm.le hp0 hp1.le he0 he

/-- C3 witness: MOIC at a 100,000,000 exit is at most MOIC at a 300,000,000
exit (straddling the carve-out threshold) for the Scenario A fund. -/
theorem investor_moic_mono_witness :
    0 < (10000000 : ℚ) ∧ 0 < (2000000 : ℚ) ∧ 0 < (82000000 : ℚ) ∧
    (2000000 : ℚ) ≤ 10000000 ∧ 1 ≤ 2 ∧ 0 ≤ (10 : ℚ) ∧ (10 : ℚ) < 100 ∧
    0 ≤ (100000000 : ℚ) ∧ (100000000 : ℚ) ≤ 300000000 ∧
    (calculate_waterfall (fun _ => none) 10000000 2000000 100000000 10 2
      82000000).investor_moic ≤
    (calculate_waterfall (fun _ => none) 10000000 2000000 300000000 10 2
      82000000).investor_moic :=
  ⟨by norm_num, by norm_num, by norm_num, by norm_num, by norm_num, by norm_num,
    by norm_num, by norm_num, by norm_num,
    investor_moic_mono (fun _ => none) 10000000 2000000 10 82000000 2
      (by norm_num) (by norm_num) (by norm_num) (by norm_num) (by norm_num)
      (by norm_num) (by norm_num) 100000000 300000000 (by norm_num) (by norm_num)⟩

lemma find?_first_sorted (q : ℚ → Bool) (l : List ℚ)
    (hs : List.Pairwise (· < ·) l) :
    (∀ v, l.find? q = some v → q v = true ∧ ∀ u ∈ l, u < v → q u = false) ∧
    (l.find? q = none → ∀ u ∈ l, q u = false) := by
  induction l with
  | nil =>
    exact ⟨fun v hv => by simp at hv, fun _ u hu => by simp at hu⟩
  | cons a t IH =>
    obtain ⟨ha, ht⟩ := List.pairwise_cons.mp hs
    obtain ⟨IH1, IH2⟩ := IH ht
    constructor
    · intro v hv
      by_cases hqa : q a = true
      · rw [List.find?_cons_of_pos _ hqa, Option.some.injEq] at hv
        subst hv
        refine ⟨hqa, fun u hu hult => ?_⟩
        rcases List.mem_cons.mp hu with rfl | hu'
        · exact absurd hult (lt_irrefl u)
        · exact absurd hult (not_lt.mpr (ha u hu').le)
      · have hqa' : q a = false := Bool.not_eq_true _ ▸ eq_false_of_ne_true hqa
        rw [List.find?_cons_of_neg _ (by simp [hqa'])] at hv
        obtain ⟨hv1, hv2⟩ := IH1 v hv
        refine ⟨hv1, fun u hu hult => ?_⟩
        rcases List.mem_cons.mp hu with rfl | hu'
        · exact hqa'
        · exact hv2 u hu' hult
    · intro hn u hu
      rw [List.find?_eq_none] at hn
      exact eq_false_of_ne_true (hn u hu)

/-- C8: for every parameter set, target MOIC and (increasing) list of scanned
exit values, the threshold scan returns the first scanned exit value whose
MOIC reaches the target — if it returns `v` then `moic v ≥ target` and every
scanned `u < v` has `moic u < target` — and returns `none` exactly when no
scanned value qualifies. -/
theorem threshold_scan_first (sol : List ℚ → Option ℚ)
    (f c p pm target : ℚ) (h : ℕ) (exit_vals : List ℚ)
    (hsorted : List.Pairwise (· < ·) exit_vals) :
    (∀ v, threshold_scan sol f c p h pm target exit_vals = some v →
      target ≤ (calculate_waterfall sol f c v p h pm).investor_moic ∧
      ∀ u ∈ exit_vals, u < v →
        (calculate_waterfall sol f c u p h pm).investor_moic < target) ∧
    (threshold_scan sol f c p h pm target exit_vals = none →
      ∀ u ∈ exit_vals,
        (calculate_waterfall sol f c u p h pm).investor_moic < target) := by
  obtain ⟨H1, H2⟩ := find?_first_sorted
    (fun v => decide (target ≤ (calculate_waterfall sol f c v p h pm).investor_moic))
    exit_vals hsorted
  constructor
  · intro v hv
    obtain ⟨h1, h2⟩ := H1 v hv
    refine ⟨of_decide_eq_true h1, fun u hu hult => ?_⟩
    have h3 := h2 u hu hult
    simp only [decide_eq_false_iff_not, not_le] at h3
    exact h3
  · intro hn u hu
    have h3 := H2 hn u hu
    simp only [decide_eq_false_iff_not, not_le] at h3
    exact h3

/-- C8 witness: the theorem at the Scenario A fund, target MOIC 1, scanned
exit values 5,000,000 < 100,000,000. -/
theorem threshold_scan_first_witness :
    List.Pairwise (· < ·) [(5000000 : ℚ), 100000000] ∧
    ((∀ v, threshold_scan (fun _ => none) 10000000 2000000 10 2 82000000 1
        [(5000000 : ℚ), 100000000] = some v →
      (1 : ℚ) ≤ (calculate_waterfall (fun _ => none) 10000000 2000000 v 10 2
        82000000).investor_moic ∧
      ∀ u ∈ [(5000000 : ℚ), 100000000], u < v →
        (calculate_waterfall (fun _ => none) 10000000 2000000 u 10 2
          82000000).investor_moic < 1) ∧
    (threshold_scan (fun _ => none) 10000000 2000000 10 2 82000000 1
        [(5000000 : ℚ), 100000000] = none →
      ∀ u ∈ [(5000000 : ℚ), 100000000],
        (calculate_waterfall (fun _ => none) 10000000 2000000 u 10 2
          82000000).investor_moic < 1)) :=
  ⟨by norm_num,
    threshold_scan_first (fun _ => none) 10000000 2000000 10 82000000 1 2
      [(5000000 : ℚ), 100000000] (by norm_num)⟩
